import Mathlib

/-!
Shallow embedding of `src/data-science-apps/bokeh-scikit-learn/cluster2.py`.

The script is a Bokeh + scikit-learn interactive clustering demo.  The
repository-owned logic consists of:
  * `clustering`  (lines 59-100): standardizes the point set, dispatches on an
    algorithm name string to build one of eight estimators, fits it and
    extracts a label per point;
  * `get_dataset` (lines 102-113): dispatches on a dataset name string to one
    of four synthetic generators;
  * the recolor step `[spectral[i] for i in y_pred]` over the palette
    `spectral = np.hstack([Spectral6] * 20)` (lines 30-31, 124, 145, 159, 172);
  * four UI callbacks (lines 116-176) that rebind the process-wide globals
    `X`, `y` and overwrite the plot data source columns.

External library calls (scikit-learn estimators, dataset generators, the
standard scaler, the k-nearest-neighbor graph builder, numpy random) are
modelled as fields of a structure `SKLib`, bundled with the length contracts
these library routines guarantee.  Everything the repository itself computes
is embedded directly.  Points are pairs of rationals, labels are integers
(`model.labels_.astype(np.int)`), colors are strings.
-/

set_option maxRecDepth 4000

namespace Cluster2

/-- A 2-D point, one row of the numpy array `X`. -/
abbrev Point := ℚ × ℚ

/-- An ordered sequence of 2-D coordinates (the rows of `X`). -/
abbrev PointSet := List Point

/-- A sequence of integer cluster ids, one per point (`y_pred`). -/
abbrev LabelAssignment := List Int

/-- A display color, one entry of the bokeh `Spectral6` palette. -/
abbrev Color := String

/-- A sparse matrix of the numerical library, indexed by row and column
(the `connectivity` matrix). -/
abbrev Mat := Nat → Nat → ℚ

/-- Line 67: `connectivity = 0.5 * (connectivity + connectivity.T)`,
entrywise on the matrix. -/
def symmetrize (A : Mat) : Mat := fun i j => (1 / 2) * (A i j + A j i)

/-- The estimator object built by the if/elif chain of `clustering`
(lines 69-92): the constructor called and the arguments passed to it.
`AgglomerativeClustering` carries the optional `affinity` argument (absent in
the `Ward` branch, `"cityblock"` in the `AgglomerativeClustering` branch) and
the connectivity matrix. -/
inductive Model where
  | MiniBatchKMeans (n_clusters : Int)
  | AffinityPropagation (damping preference : ℚ)
  | MeanShift (bandwidth : ℚ) (bin_seeding : Bool)
  | SpectralClustering (n_clusters : Int) (eigen_solver affinity : String)
  | AgglomerativeClustering (n_clusters : Int) (linkage : String)
      (affinity : Option String) (connectivity : Mat)
  | Birch (n_clusters : Int)
  | DBSCAN (eps : ℚ)

/-- The result of `model.fit(X)`: the optional fitted-label attribute
`labels_` (present iff the `hasattr` test of line 95 holds) and the
`predict` operation. -/
structure Fitted where
  labels_ : Option LabelAssignment
  predict : PointSet → LabelAssignment

/-- The external numerical library surface the script calls, with the length
contracts those routines guarantee.  `standardize` models
`StandardScaler().fit_transform` (per-axis zero mean, unit variance);
`estimate_bandwidth` models `cluster.estimate_bandwidth(X, quantile=q)`;
`kneighbors_graph X k s` models `kneighbors_graph(X, n_neighbors=k,
include_self=s)`; `fit` models constructing the estimator described by a
`Model` value and fitting it on a point set; `make_circles n f ns`,
`make_moons n ns`, `make_blobs n r` model the sklearn generators with the
named sample count, factor/noise/random-state arguments; `rand2 n` models
`np.random.rand(n, 2)`, `n` uniformly random 2-D points. -/
structure SKLib where
  standardize : PointSet → PointSet
  estimate_bandwidth : PointSet → ℚ → ℚ
  kneighbors_graph : PointSet → Nat → Bool → Mat
  fit : Model → PointSet → Fitted
  make_circles : Int → ℚ → ℚ → PointSet × LabelAssignment
  make_moons : Int → ℚ → PointSet × LabelAssignment
  make_blobs : Int → Nat → PointSet × LabelAssignment
  rand2 : Int → PointSet
  standardize_len : ∀ X, (standardize X).length = X.length
  fit_labels_len : ∀ m X ls, (fit m X).labels_ = some ls → ls.length = X.length
  predict_len : ∀ m X Y, ((fit m X).predict Y).length = Y.length
  make_circles_len : ∀ n f ns, 0 ≤ n → (make_circles n f ns).1.length = n.toNat
  make_moons_len : ∀ n ns, 0 ≤ n → (make_moons n ns).1.length = n.toNat
  make_blobs_len : ∀ n r, 0 ≤ n → (make_blobs n r).1.length = n.toNat
  rand2_len : ∀ n, 0 ≤ n → (rand2 n).length = n.toNat

/-- Line 9: the bokeh 6-color `Spectral6` base palette. -/
def Spectral6 : List Color :=
  ["#3288bd", "#99d594", "#e6f598", "#fee08b", "#fc8d59", "#d53e4f"]

/-- Line 30: `spectral = np.hstack([Spectral6] * 20)`, the base palette
repeated 20 times (120 entries). -/
def spectral : List Color := (List.replicate 20 Spectral6).flatten

/-- Python sequence indexing `xs[i]` for an integer index: a nonnegative
index counts from the front, a negative index `i` with `-len ≤ i` addresses
entry `len + i`, and anything out of range raises `IndexError` (`none`). -/
def pyIndex (xs : List Color) (i : Int) : Option Color :=
  if 0 ≤ i then xs.get? i.toNat
  else if 0 ≤ i + xs.length then xs.get? (i + xs.length).toNat
  else none

/-- The recolor step `colors = [spectral[i] for i in y_pred]`
(lines 124, 145, 159, 172): `none` models the comprehension raising
`IndexError` at the first out-of-range label. -/
def recolor (y_pred : LabelAssignment) : Option (List Color) :=
  match y_pred with
  | [] => some []
  | i :: rest =>
    match pyIndex spectral i, recolor rest with
    | some c, some cs => some (c :: cs)
    | _, _ => none

/-- Python `int()` applied to a float slider value: truncation toward zero. -/
def pyInt (q : ℚ) : Int := if 0 ≤ q then ⌊q⌋ else ⌈q⌉

/-- Line 46-48: the `clustering_algorithms` widget option list. -/
def clustering_algorithms : List String :=
  ["MiniBatchKMeans", "AffinityPropagation", "MeanShift", "SpectralClustering",
   "Ward", "AgglomerativeClustering", "DBSCAN", "Birch"]

/-- Line 50: the `datasets_names` widget option list. -/
def datasets_names : List String :=
  ["Noisy Circles", "Noisy Moons", "Blobs", "No Structure"]

/-- Lines 62-92 of `clustering`, on the already-standardized point set `X`:
the bandwidth estimate (line 63, quantile 0.3), the symmetrized 10-nearest-
neighbor connectivity matrix with self-neighbors excluded (lines 65-67), and
the if/elif dispatch on the algorithm name (lines 69-92).  Returns the built
estimator together with the list of diagnostic notices printed (the `else`
branch prints one, line 91). -/
def modelFor (lib : SKLib) (X : PointSet) (algorithm : String)
    (n_clusters : Int) : Model × List String :=
  let bandwidth := lib.estimate_bandwidth X (3 / 10)
  let connectivity := symmetrize (lib.kneighbors_graph X 10 false)
  if algorithm = "MiniBatchKMeans" then
    (Model.MiniBatchKMeans n_clusters, [])
  else if algorithm = "AffinityPropagation" then
    (Model.AffinityPropagation (9 / 10) (-200), [])
  else if algorithm = "MeanShift" then
    (Model.MeanShift bandwidth true, [])
  else if algorithm = "SpectralClustering" then
    (Model.SpectralClustering n_clusters "arpack" "nearest_neighbors", [])
  else if algorithm = "Ward" then
    (Model.AgglomerativeClustering n_clusters "ward" none connectivity, [])
  else if algorithm = "AgglomerativeClustering" then
    (Model.AgglomerativeClustering n_clusters "average" (some "cityblock")
      connectivity, [])
  else if algorithm = "Birch" then
    (Model.Birch n_clusters, [])
  else if algorithm = "DBSCAN" then
    (Model.DBSCAN (2 / 10), [])
  else
    (Model.MiniBatchKMeans n_clusters,
     ["No Algorithm selected. Default is MiniBatchKMeans"])

/-- Lines 95-98: `y_pred = model.labels_.astype(np.int)` when the fitted
model has the `labels_` attribute, else `model.predict(X)`. -/
def extractLabels (f : Fitted) (X : PointSet) : LabelAssignment :=
  match f.labels_ with
  | some ls => ls
  | none => f.predict X

/-- `clustering(X, algorithm, n_clusters)` (lines 59-100): re-standardize
`X` (line 61), build the estimator (lines 62-92, see `modelFor`), fit it
(line 93), extract the labels (lines 95-98) and return the standardized
point set with the label assignment (line 100), paired with the diagnostic
notices printed along the way. -/
def clustering (lib : SKLib) (X0 : PointSet) (algorithm : String)
    (n_clusters : Int) : (PointSet × LabelAssignment) × List String :=
  let X := lib.standardize X0
  let mn := modelFor lib X algorithm n_clusters
  let fitted := lib.fit mn.1 X
  ((X, extractLabels fitted X), mn.2)

/-- `get_dataset(dataset, n_samples)` (lines 102-113): dispatch on the
dataset name; the fall-through `else` branch returns `n_samples` uniformly
random 2-D points and `None` in place of ground-truth labels.  The second
component records diagnostic notices printed (there are none: no branch
prints). -/
def get_dataset (lib : SKLib) (dataset : String) (n_samples : Int) :
    (PointSet × Option LabelAssignment) × List String :=
  if dataset = "Noisy Circles" then
    let p := lib.make_circles n_samples (1 / 2) (1 / 20)
    ((p.1, some p.2), [])
  else if dataset = "Noisy Moons" then
    let p := lib.make_moons n_samples (1 / 20)
    ((p.1, some p.2), [])
  else if dataset = "Blobs" then
    let p := lib.make_blobs n_samples 8
    ((p.1, some p.2), [])
  else
    ((lib.rand2 n_samples, none), [])

/-- The process-wide session state the script mutates: the globals `X` and
`y` (lines 20, 121, 139, 170), the plot data source columns (line 33), the
plot title (lines 39, 130), and the current widget values (lines 52-56).
Widget sliders hold float values, cast with `int()` inside each handler. -/
structure AppState where
  X : PointSet
  y : Option LabelAssignment
  sourceX : List ℚ
  sourceY : List ℚ
  sourceColors : List Color
  title : Option String
  algorithm_select : String
  dataset_select : String
  samples_slider : ℚ
  clusters_slider : ℚ
deriving DecidableEq

/-- `update_algorithm` (lines 116-130): declares `global X, y`; re-clusters
the global `X` with the selected algorithm (rebinding the global `X` to the
standardized point set), recolors, overwrites the data source columns and
sets the plot title to the algorithm name.  `none` models the recolor
comprehension raising `IndexError` (the callback aborts). -/
def update_algorithm (lib : SKLib) (s : AppState) : Option AppState :=
  let algorithm := s.algorithm_select
  let n_clusters := pyInt s.clusters_slider
  let r := (clustering lib s.X algorithm n_clusters).1
  match recolor r.2 with
  | none => none
  | some colors =>
    some { s with
      X := r.1
      sourceColors := colors
      sourceX := r.1.map Prod.fst
      sourceY := r.1.map Prod.snd
      title := some algorithm }

/-- `update_dataset` (lines 132-149): declares `global X, y`; regenerates
the point set from the selected dataset and the sample-count slider,
re-clusters it (rebinding the globals `X` and `y`), recolors and overwrites
the data source columns.  The plot title is not touched. -/
def update_dataset (lib : SKLib) (s : AppState) : Option AppState :=
  let dataset := s.dataset_select
  let algorithm := s.algorithm_select
  let n_clusters := pyInt s.clusters_slider
  let n_samples := pyInt s.samples_slider
  let g := (get_dataset lib dataset n_samples).1
  let r := (clustering lib g.1 algorithm n_clusters).1
  match recolor r.2 with
  | none => none
  | some colors =>
    some { s with
      X := r.1
      y := g.2
      sourceX := r.1.map Prod.fst
      sourceY := r.1.map Prod.snd
      sourceColors := colors }

/-- `update_samples` (lines 151-163): performs the same regeneration,
re-clustering and recoloring as `update_dataset`, but has NO `global`
declaration, so its assignments `X, y = get_dataset(...)` and
`X, y_pred = clustering(...)` bind function-local variables: the
process-wide `X` and `y` are left unchanged; only the data source columns
are overwritten (from the local, regenerated point set). -/
def update_samples (lib : SKLib) (s : AppState) : Option AppState :=
  let dataset := s.dataset_select
  let algorithm := s.algorithm_select
  let n_clusters := pyInt s.clusters_slider
  let n_samples := pyInt s.samples_slider
  let g := (get_dataset lib dataset n_samples).1
  let r := (clustering lib g.1 algorithm n_clusters).1
  match recolor r.2 with
  | none => none
  | some colors =>
    some { s with
      sourceX := r.1.map Prod.fst
      sourceY := r.1.map Prod.snd
      sourceColors := colors }

/-- `update_clusters` (lines 165-176): declares `global X`; re-clusters the
global `X` with the cluster-count slider value (rebinding the global `X`),
recolors and overwrites the data source columns. -/
def update_clusters (lib : SKLib) (s : AppState) : Option AppState :=
  let algorithm := s.algorithm_select
  let n_clusters := pyInt s.clusters_slider
  let r := (clustering lib s.X algorithm n_clusters).1
  match recolor r.2 with
  | none => none
  | some colors =>
    some { s with
      X := r.1
      sourceX := r.1.map Prod.fst
      sourceY := r.1.map Prod.snd
      sourceColors := colors }

/-- The point set the spec says the sample-count handler stores into the
session state: regenerate from the current dataset name and the sample-count
slider, then re-cluster (which standardizes); its first component is the
point set the global `X` would hold if the handler rebound it. -/
def regenerated (lib : SKLib) (s : AppState) : PointSet × LabelAssignment :=
  (clustering lib
    (get_dataset lib s.dataset_select (pyInt s.samples_slider)).1.1
    s.algorithm_select (pyInt s.clusters_slider)).1

/-- A concrete, lawful instance of the library surface, used to evaluate the
embedded script on explicit inputs: the scaler is the identity, every fit
exposes `labels_` as the all-zero assignment, and the generators return
constant point sets of the requested length. -/
def testLib : SKLib where
  standardize := fun X => X
  estimate_bandwidth := fun _ _ => 0
  kneighbors_graph := fun _ _ _ => fun i j => (i : ℚ) + 2 * (j : ℚ)
  fit := fun _ X =>
    { labels_ := some (List.replicate X.length 0)
      predict := fun Y => List.replicate Y.length 0 }
  make_circles := fun n _ _ =>
    (List.replicate n.toNat ((0 : ℚ), (0 : ℚ)), List.replicate n.toNat 0)
  make_moons := fun n _ =>
    (List.replicate n.toNat ((0 : ℚ), (1 : ℚ)), List.replicate n.toNat 0)
  make_blobs := fun n _ =>
    (List.replicate n.toNat ((1 : ℚ), (0 : ℚ)), List.replicate n.toNat 0)
  rand2 := fun n => List.replicate n.toNat ((2 : ℚ), (3 : ℚ))
  standardize_len := fun _ => rfl
  fit_labels_len := by
    intro m X ls h
    simp only [Option.some.injEq] at h
    simp [← h]
  predict_len := by intro m X Y; simp
  make_circles_len := by intro n f ns _; simp
  make_moons_len := by intro n ns _; simp
  make_blobs_len := by intro n r _; simp
  rand2_len := by intro n _; simp

/-- A concrete session state used to evaluate the handlers on explicit
inputs: one current point, dataset `"No Structure"`, sample-count slider at
2, cluster-count slider at 2. -/
def sampleState : AppState where
  X := [((9 : ℚ), (9 : ℚ))]
  y := none
  sourceX := [9]
  sourceY := [9]
  sourceColors := ["#3288bd"]
  title := none
  algorithm_select := "MiniBatchKMeans"
  dataset_select := "No Structure"
  samples_slider := 2
  clusters_slider := 2

/-- The state `update_samples testLib sampleState` produces: only the data
source columns change; the session-state `X` and `y` stay as they were. -/
def samplesStateAfter : AppState :=
  { sampleState with
      sourceX := [2, 2]
      sourceY := [3, 3]
      sourceColors := ["#3288bd", "#3288bd"] }

/-- The state `update_algorithm testLib sampleState` produces. -/
def algoStateAfter : AppState :=
  { sampleState with
      X := [((9 : ℚ), (9 : ℚ))]
      sourceX := [9]
      sourceY := [9]
      sourceColors := ["#3288bd"]
      title := some "MiniBatchKMeans" }

/-- The state `update_dataset testLib sampleState` produces. -/
def dataStateAfter : AppState :=
  { sampleState with
      X := [((2 : ℚ), (3 : ℚ)), ((2 : ℚ), (3 : ℚ))]
      y := none
      sourceX := [2, 2]
      sourceY := [3, 3]
      sourceColors := ["#3288bd", "#3288bd"] }

/-! Helper lemmas shared by the claim theorems. -/

lemma spectral_length : spectral.length = 120 := by decide

lemma pyIndex_spectral_mem (i : Int) (h1 : -120 ≤ i) (h2 : i < 120) :
    ∃ c, pyIndex spectral i = some c ∧ c ∈ Spectral6 := by
  have key : ∀ n : Fin 120, spectral.get? (n : Nat) ∈ Spectral6.map some := by
    decide
  unfold pyIndex
  rw [spectral_length]
  push_cast
  by_cases h0 : 0 ≤ i
  · rw [if_pos h0]
    have hn : i.toNat < 120 := by omega
    obtain ⟨c, hc, heq⟩ := List.mem_map.1 (key ⟨i.toNat, hn⟩)
    exact ⟨c, heq.symm, hc⟩
  · rw [if_neg h0]
    have hge : (0 : Int) ≤ i + 120 := by omega
    rw [if_pos hge]
    have hn : (i + 120).toNat < 120 := by omega
    obtain ⟨c, hc, heq⟩ := List.mem_map.1 (key ⟨(i + 120).toNat, hn⟩)
    exact ⟨c, heq.symm, hc⟩

lemma recolor_total_aux (y_pred : LabelAssignment)
    (h : ∀ i ∈ y_pred, -120 ≤ i ∧ i < 120) :
    ∃ cs, recolor y_pred = some cs ∧ cs.length = y_pred.length ∧
      ∀ c ∈ cs, c ∈ Spectral6 := by
  induction y_pred with
  | nil => exact ⟨[], rfl, rfl, by simp⟩
  | cons i rest ih =>
    obtain ⟨hi1, hi2⟩ := h i (List.mem_cons_self i rest)
    obtain ⟨c, hc, hcmem⟩ := pyIndex_spectral_mem i hi1 hi2
    obtain ⟨cs, hcs, hlen, hmem⟩ := ih fun j hj => h j (List.mem_cons_of_mem i hj)
    refine ⟨c :: cs, ?_, by simp [hlen], ?_⟩
    · simp [recolor, hc, hcs]
    · intro d hd
      rcases List.mem_cons.1 hd with h | h
      · exact h ▸ hcmem
      · exact hmem d h

lemma extractLabels_length (lib : SKLib) (m : Model) (X : PointSet) :
    (extractLabels (lib.fit m X) X).length = X.length := by
  unfold extractLabels
  cases hl : (lib.fit m X).labels_ with
  | none => exact lib.predict_len m X X
  | some ls => exact lib.fit_labels_len m X ls hl

lemma extractLabels_of_labels (f : Fitted) (X : PointSet) (ls : LabelAssignment)
    (h : f.labels_ = some ls) : extractLabels f X = ls := by
  unfold extractLabels
  rw [h]

lemma extractLabels_of_predict (f : Fitted) (X : PointSet)
    (h : f.labels_ = none) : extractLabels f X = f.predict X := by
  unfold extractLabels
  rw [h]

/-- C1: for every point set and target cluster count, calling the clustering
dispatcher with an algorithm name outside the 8 enumerated strings returns
exactly the same (PointSet, LabelAssignment) pair as calling it with
`MiniBatchKMeans` and the same cluster count, and additionally prints the
non-fatal diagnostic notice of line 91 (while the `MiniBatchKMeans` branch
prints nothing). -/
theorem clustering_unknown_eq_minibatchkmeans (lib : SKLib) (X : PointSet)
    (algorithm : String) (n_clusters : Int)
    (h : algorithm ∉ clustering_algorithms) :
    (clustering lib X algorithm n_clusters).1
        = (clustering lib X "MiniBatchKMeans" n_clusters).1 ∧
      (clustering lib X algorithm n_clusters).2
        = ["No Algorithm selected. Default is MiniBatchKMeans"] ∧
      (clustering lib X "MiniBatchKMeans" n_clusters).2 = [] := by
  simp only [clustering_algorithms, List.mem_cons, List.not_mem_nil, or_false,
    not_or] at h
  obtain ⟨h1, h2, h3, h4, h5, h6, h7, h8⟩ := h
  refine ⟨?_, ?_, rfl⟩ <;>
    simp [clustering, modelFor, extractLabels, h1, h2, h3, h4, h5, h6, h7, h8]

theorem clustering_unknown_eq_minibatchkmeans_witness :
    "Foo" ∉ clustering_algorithms ∧
      (clustering testLib [((1 : ℚ), (2 : ℚ))] "Foo" 2).1
        = (clustering testLib [((1 : ℚ), (2 : ℚ))] "MiniBatchKMeans" 2).1 ∧
      (clustering testLib [((1 : ℚ), (2 : ℚ))] "Foo" 2).2
        = ["No Algorithm selected. Default is MiniBatchKMeans"] :=
  ⟨by decide,
    (clustering_unknown_eq_minibatchkmeans testLib [((1 : ℚ), (2 : ℚ))] "Foo" 2
      (by decide)).1,
    (clustering_unknown_eq_minibatchkmeans testLib [((1 : ℚ), (2 : ℚ))] "Foo" 2
      (by decide)).2.1⟩

/-- C2: the `DBSCAN` branch builds its estimator from the fixed epsilon 0.2
only, so for every point set the dispatcher result is identical for any two
target cluster counts: the cluster-count parameter has no influence on the
DBSCAN result. -/
theorem clustering_dbscan_ignores_n_clusters (lib : SKLib) (X : PointSet)
    (c1 c2 : Int) :
    clustering lib X "DBSCAN" c1 = clustering lib X "DBSCAN" c2 := rfl

theorem clustering_dbscan_ignores_n_clusters_witness :
    clustering testLib [((1 : ℚ), (2 : ℚ))] "DBSCAN" 2
      = clustering testLib [((1 : ℚ), (2 : ℚ))] "DBSCAN" 9 :=
  clustering_dbscan_ignores_n_clusters testLib [((1 : ℚ), (2 : ℚ))] 2 9

/-- C4 counterexample: the claim quantifies over every label assignment, but
the label 120 is out of range for the 120-entry palette, so the recolor
comprehension raises `IndexError` and produces no color assignment at all. -/
theorem recolor_label_120_fails : recolor [(120 : Int)] = none := by decide

/-- C4 (amended): for every label assignment whose entries are valid Python
indices into the 120-entry palette (that is, lie in [-120, 120)), the
recolor step produces a color assignment of the same length, each color
obtained by indexing into the palette built by repeating the 6-color base
palette 20 times, so every entry is one of the 6 base palette colors. -/
theorem recolor_valid_labels (y_pred : LabelAssignment)
    (h : ∀ i ∈ y_pred, -120 ≤ i ∧ i < 120) :
    ∃ cs, recolor y_pred = some cs ∧ cs.length = y_pred.length ∧
      ∀ c ∈ cs, c ∈ Spectral6 :=
  recolor_total_aux y_pred h

theorem recolor_valid_labels_witness :
    (∀ i ∈ [(0 : Int), -1, 119], -120 ≤ i ∧ i < 120) ∧
      ∃ cs, recolor [(0 : Int), -1, 119] = some cs ∧
        cs.length = [(0 : Int), -1, 119].length ∧ ∀ c ∈ cs, c ∈ Spectral6 :=
  ⟨by decide, recolor_valid_labels [(0 : Int), -1, 119] (by decide)⟩

/-- C5: for each of the four enumerated dataset names and every nonnegative
requested sample count, `get_dataset` returns a point set of exactly the
requested size, together with a ground-truth label assignment for
Noisy Circles, Noisy Moons and Blobs, and `None` in its place for
No Structure. -/
theorem get_dataset_four_names (lib : SKLib) (n : Int) (h : 0 ≤ n) :
    ((get_dataset lib "Noisy Circles" n).1.1.length = n.toNat ∧
        (get_dataset lib "Noisy Circles" n).1.2
          = some (lib.make_circles n (1 / 2) (1 / 20)).2) ∧
      ((get_dataset lib "Noisy Moons" n).1.1.length = n.toNat ∧
        (get_dataset lib "Noisy Moons" n).1.2
          = some (lib.make_moons n (1 / 20)).2) ∧
      ((get_dataset lib "Blobs" n).1.1.length = n.toNat ∧
        (get_dataset lib "Blobs" n).1.2 = some (lib.make_blobs n 8).2) ∧
      ((get_dataset lib "No Structure" n).1.1.length = n.toNat ∧
        (get_dataset lib "No Structure" n).1.2 = none) :=
  ⟨⟨lib.make_circles_len n (1 / 2) (1 / 20) h, rfl⟩,
    ⟨lib.make_moons_len n (1 / 20) h, rfl⟩,
    ⟨lib.make_blobs_len n 8 h, rfl⟩,
    ⟨lib.rand2_len n h, rfl⟩⟩

theorem get_dataset_four_names_witness :
    (0 : Int) ≤ 3 ∧
      (get_dataset testLib "Noisy Circles" 3).1.1.length = (3 : Int).toNat ∧
      (get_dataset testLib "No Structure" 3).1.2 = none :=
  ⟨by decide, (get_dataset_four_names testLib 3 (by decide)).1.1,
    (get_dataset_four_names testLib 3 (by decide)).2.2.2.2⟩

/-- C6: for every point set, algorithm name and cluster count, the
dispatcher returns the standardized point set (`StandardScaler`, zero mean
and unit variance per axis, modelled by `SKLib.standardize`) as its first
component; the label assignment has exactly one label per input point; and
the labels come from the fitted-label attribute `labels_` when the fitted
estimator has it, else from calling `predict` on the same standardized
data. -/
theorem clustering_standardize_and_labels (lib : SKLib) (X0 : PointSet)
    (algorithm : String) (n_clusters : Int) :
    (clustering lib X0 algorithm n_clusters).1.1 = lib.standardize X0 ∧
      (clustering lib X0 algorithm n_clusters).1.2.length = X0.length ∧
      (∀ ls,
        (lib.fit (modelFor lib (lib.standardize X0) algorithm n_clusters).1
            (lib.standardize X0)).labels_ = some ls →
          (clustering lib X0 algorithm n_clusters).1.2 = ls) ∧
      ((lib.fit (modelFor lib (lib.standardize X0) algorithm n_clusters).1
            (lib.standardize X0)).labels_ = none →
        (clustering lib X0 algorithm n_clusters).1.2
          = (lib.fit (modelFor lib (lib.standardize X0) algorithm n_clusters).1
              (lib.standardize X0)).predict (lib.standardize X0)) := by
  refine ⟨rfl, ?_, ?_, ?_⟩
  · exact (extractLabels_length lib
        (modelFor lib (lib.standardize X0) algorithm n_clusters).1
        (lib.standardize X0)).trans (lib.standardize_len X0)
  · intro ls hls
    exact extractLabels_of_labels _ _ ls hls
  · intro hnone
    exact extractLabels_of_predict _ _ hnone

theorem clustering_standardize_and_labels_witness :
    (clustering testLib [((1 : ℚ), (2 : ℚ)), ((3 : ℚ), (4 : ℚ))] "Birch" 3).1.1
        = testLib.standardize [((1 : ℚ), (2 : ℚ)), ((3 : ℚ), (4 : ℚ))] ∧
      (clustering testLib [((1 : ℚ), (2 : ℚ)), ((3 : ℚ), (4 : ℚ))]
          "Birch" 3).1.2.length
        = [((1 : ℚ), (2 : ℚ)), ((3 : ℚ), (4 : ℚ))].length :=
  ⟨(clustering_standardize_and_labels testLib
      [((1 : ℚ), (2 : ℚ)), ((3 : ℚ), (4 : ℚ))] "Birch" 3).1,
    (clustering_standardize_and_labels testLib
      [((1 : ℚ), (2 : ℚ)), ((3 : ℚ), (4 : ℚ))] "Birch" 3).2.1⟩

/-- C7: when a run of `update_algorithm` completes it has set the plot title
to the selected algorithm name, while a completed run of `update_dataset`
leaves the plot title exactly as it was and overwrites the data source
columns x, y and colors from the regenerated, re-clustered point set. -/
theorem handlers_title_effects (lib : SKLib) (s s1 s2 : AppState)
    (h1 : update_algorithm lib s = some s1)
    (h2 : update_dataset lib s = some s2) :
    s1.title = some s.algorithm_select ∧
      s2.title = s.title ∧
      s2.sourceX = (regenerated lib s).1.map Prod.fst ∧
      s2.sourceY = (regenerated lib s).1.map Prod.snd ∧
      recolor (regenerated lib s).2 = some s2.sourceColors := by
  simp only [update_algorithm] at h1
  simp only [update_dataset] at h2
  split at h1
  · exact absurd h1 (by simp)
  · cases h1
    split at h2
    · exact absurd h2 (by simp)
    · rename_i colors2 heq2
      cases h2
      exact ⟨rfl, rfl, rfl, rfl, heq2⟩

theorem handlers_title_effects_witness :
    update_algorithm testLib sampleState = some algoStateAfter ∧
      update_dataset testLib sampleState = some dataStateAfter ∧
      algoStateAfter.title = some sampleState.algorithm_select ∧
      dataStateAfter.title = sampleState.title :=
  ⟨by decide, by decide,
    (handlers_title_effects testLib sampleState algoStateAfter dataStateAfter
      (by decide) (by decide)).1,
    (handlers_title_effects testLib sampleState algoStateAfter dataStateAfter
      (by decide) (by decide)).2.1⟩

/-- C8: for every point set, the connectivity matrix the `Ward` and
`AgglomerativeClustering` branches pass to their estimator is built from the
10-nearest-neighbor graph of the standardized point set with self-neighbors
excluded and symmetrized by averaging with its transpose, and every such
symmetrized matrix is symmetric. -/
theorem ward_agglomerative_connectivity (lib : SKLib) (X0 : PointSet)
    (n_clusters : Int) (algorithm : String) :
    (algorithm = "Ward" →
        modelFor lib (lib.standardize X0) algorithm n_clusters
          = (Model.AgglomerativeClustering n_clusters "ward" none
              (symmetrize
                (lib.kneighbors_graph (lib.standardize X0) 10 false)), [])) ∧
      (algorithm = "AgglomerativeClustering" →
        modelFor lib (lib.standardize X0) algorithm n_clusters
          = (Model.AgglomerativeClustering n_clusters "average"
              (some "cityblock")
              (symmetrize
                (lib.kneighbors_graph (lib.standardize X0) 10 false)), [])) ∧
      ∀ (A : Mat) (i j : Nat), symmetrize A i j = symmetrize A j i := by
  refine ⟨?_, ?_, ?_⟩
  · rintro rfl
    rfl
  · rintro rfl
    rfl
  · intro A i j
    unfold symmetrize
    ring

theorem ward_agglomerative_connectivity_witness :
    modelFor testLib (testLib.standardize [((1 : ℚ), (2 : ℚ))]) "Ward" 2
        = (Model.AgglomerativeClustering 2 "ward" none
            (symmetrize
              (testLib.kneighbors_graph
                (testLib.standardize [((1 : ℚ), (2 : ℚ))]) 10 false)), []) ∧
      symmetrize (testLib.kneighbors_graph
          (testLib.standardize [((1 : ℚ), (2 : ℚ))]) 10 false) 0 1
        = symmetrize (testLib.kneighbors_graph
            (testLib.standardize [((1 : ℚ), (2 : ℚ))]) 10 false) 1 0 :=
  ⟨(ward_agglomerative_connectivity testLib [((1 : ℚ), (2 : ℚ))] 2 "Ward").1
      rfl,
    (ward_agglomerative_connectivity testLib [((1 : ℚ), (2 : ℚ))] 2
      "Ward").2.2
      (testLib.kneighbors_graph (testLib.standardize [((1 : ℚ), (2 : ℚ))]) 10
        false) 0 1⟩

/-- C9: for every sample count, calling `get_dataset` with any name other
than Noisy Circles, Noisy Moons or Blobs (No Structure or otherwise)
silently falls through to the uniform-random branch, returning
`np.random.rand(n_samples, 2)` (that many uniformly random 2-D points) and
`None` in place of a label assignment, with no diagnostic notice printed. -/
theorem get_dataset_unknown_name (lib : SKLib) (name : String) (n : Int)
    (h : name ∉ ["Noisy Circles", "Noisy Moons", "Blobs"]) :
    get_dataset lib name n = ((lib.rand2 n, none), []) ∧
      (0 ≤ n → (lib.rand2 n).length = n.toNat) := by
  simp only [List.mem_cons, List.not_mem_nil, or_false, not_or] at h
  obtain ⟨h1, h2, h3⟩ := h
  exact ⟨by simp [get_dataset, h1, h2, h3], fun hn => lib.rand2_len n hn⟩

theorem get_dataset_unknown_name_witness :
    "Bogus" ∉ ["Noisy Circles", "Noisy Moons", "Blobs"] ∧
      get_dataset testLib "Bogus" 2 = ((testLib.rand2 2, none), []) :=
  ⟨by decide, (get_dataset_unknown_name testLib "Bogus" 2 (by decide)).1⟩

/-- C10: recoloring is total not only for labels 0..119 but for every label
assignment whose entries lie in [-120, 119]; in particular the DBSCAN noise
label -1 indexes the 120-entry palette from the end (Python negative
indexing) and yields the last base palette color instead of raising an
out-of-bounds error. -/
theorem recolor_negative_labels :
    (∃ c, pyIndex spectral (-1) = some c ∧ Spectral6.getLast? = some c) ∧
      ∀ y_pred : LabelAssignment, (∀ i ∈ y_pred, -120 ≤ i ∧ i < 120) →
        (recolor y_pred).isSome = true := by
  refine ⟨⟨"#d53e4f", by decide, by decide⟩, ?_⟩
  intro y_pred h
  obtain ⟨cs, hcs, -, -⟩ := recolor_total_aux y_pred h
  simp [hcs]

theorem recolor_negative_labels_witness :
    (∀ i ∈ [(-1 : Int), -120, 0], -120 ≤ i ∧ i < 120) ∧
      (recolor [(-1 : Int), -120, 0]).isSome = true :=
  ⟨by decide, recolor_negative_labels.2 [(-1 : Int), -120, 0] (by decide)⟩

/-- C3 (code divergence, evaluated at a concrete input): `update_samples`
has no `global X` declaration, so after it runs the session-state point set
is unchanged and differs from the point set regenerated from the current
dataset name and the new sample count, even though the data source columns
were overwritten to match that regenerated point set. -/
theorem update_samples_leaves_global_X :
    update_samples testLib sampleState = some samplesStateAfter ∧
      samplesStateAfter.X = sampleState.X ∧
      samplesStateAfter.X ≠ (regenerated testLib sampleState).1 ∧
      samplesStateAfter.sourceX
        = (regenerated testLib sampleState).1.map Prod.fst ∧
      samplesStateAfter.sourceY
        = (regenerated testLib sampleState).1.map Prod.snd := by decide

end Cluster2
